import Mathlib

/-!
Verification of the gm-service metric model and resource layer.

The Python source (`gm/main/models/model.py`, `gm/main/resources/*.py`,
`gm/main/api.py`) is shallowly embedded: each enum, table row and handler
becomes an executable Lean definition, the database becomes an explicit
state record of row lists, and HTTP-level failures (`abort(404)`,
`abort(400)`, Python `AttributeError` on a missing ORM column) become an
error type.  All definitions are computable so that concrete scenarios can
be settled by `decide`.
-/

deriving instance DecidableEq for Except

namespace GmService

/-! ### Python string primitives

Lean's built-in `String` functions are implemented on byte positions and do
not reduce in the kernel, so the handful of `str` methods the source uses
(`upper`, `lower`, `startswith`, `endswith`, `lstrip`, `int(...)`) are
re-implemented structurally over `List Char`. -/

/-- Python `str.upper()`. -/
def pyUpper (s : String) : String := ⟨s.data.map Char.toUpper⟩

/-- Python `str.lower()`. -/
def pyLower (s : String) : String := ⟨s.data.map Char.toLower⟩

def charsStartWith : List Char → List Char → Bool
  | _, [] => true
  | [], _ :: _ => false
  | a :: as, b :: bs => a == b && charsStartWith as bs

/-- Python `str.startswith(p)`. -/
def pyStartsWith (s p : String) : Bool := charsStartWith s.data p.data

/-- Python `str.endswith(p)`. -/
def pyEndsWith (s p : String) : Bool := charsStartWith s.data.reverse p.data.reverse

/-- Python `str.lstrip(c)` for a single-character strip set. -/
def pyLstrip (s : String) (c : Char) : String := ⟨s.data.dropWhile (· == c)⟩

/-- Whether `needle` occurs as a contiguous substring of the list. -/
def charsContainSeg : List Char → List Char → Bool
  | _, [] => true
  | [], _ :: _ => false
  | a :: as, b :: bs => charsStartWith (a :: as) (b :: bs) || charsContainSeg as (b :: bs)

/-- Whether `msg` mentions `tok` as a contiguous substring. -/
def msgMentions (msg tok : String) : Bool := charsContainSeg msg.data tok.data

def isDigitChar (c : Char) : Bool := '0' ≤ c && c ≤ '9'

def charsToNat? (l : List Char) : Option Nat :=
  if l.isEmpty || !(l.all isDigitChar) then none
  else some (l.foldl (fun acc c => acc * 10 + (c.toNat - '0'.toNat)) 0)

/-- Python `int(s)` on a decimal string (optional leading minus sign). -/
def pyInt? (s : String) : Option Int :=
  match s.data with
  | '-' :: rest => (charsToNat? rest).map (fun n => -(n : Int))
  | l => (charsToNat? l).map (fun n => (n : Int))

/-- A single-quote character, used to render Python `repr` of string lists. -/
def sq : String := ⟨[Char.ofNat 39]⟩

def quoteJoin : List String → String
  | [] => ""
  | [x] => sq ++ x ++ sq
  | x :: y :: rest => sq ++ x ++ sq ++ ", " ++ quoteJoin (y :: rest)

/-- Python `str(list_of_str)`, as interpolated into the abort messages. -/
def pyStrListRepr (l : List String) : String := "[" ++ quoteJoin l ++ "]"

/-! ### 1. Enums (model.py) -/

/-- `ThresholdType` enum: the comparison operator family of a metric
threshold (model.py).  Members in declaration order. -/
inductive ThresholdType
  | GTE | GT | LTE | LT | NE | EQ | IN | NOT_IN
  | RANGE | RANGE_LO | RANGE_RO | RANGE_LRO
deriving DecidableEq, Repr, Fintype

namespace ThresholdType

/-- The Python `.name` of each enum member. -/
def name : ThresholdType → String
  | .GTE => "GTE"
  | .GT => "GT"
  | .LTE => "LTE"
  | .LT => "LT"
  | .NE => "NE"
  | .EQ => "EQ"
  | .IN => "IN"
  | .NOT_IN => "NOT_IN"
  | .RANGE => "RANGE"
  | .RANGE_LO => "RANGE_LO"
  | .RANGE_RO => "RANGE_RO"
  | .RANGE_LRO => "RANGE_LRO"

/-- Iteration order of `for tt in ThresholdType` (declaration order). -/
def members : List ThresholdType :=
  [.GTE, .GT, .LTE, .LT, .NE, .EQ, .IN, .NOT_IN, .RANGE, .RANGE_LO, .RANGE_RO, .RANGE_LRO]

/-- `ThresholdType.values()`: the member names, for error messages. -/
def values : List String := members.map name

/-- `ThresholdType.is_range`: `self.name.startswith("RANGE")`. -/
def is_range (t : ThresholdType) : Bool := pyStartsWith t.name "RANGE"

/-- `ThresholdType.is_set`: `self.name.endswith("IN")`. -/
def is_set (t : ThresholdType) : Bool := pyEndsWith t.name "IN"

/-- `ThresholdType.from_name`: case-insensitive member lookup; raises
`ValueError('Invalid name %s' % name)` when no member matches. -/
def from_name (s : String) : Except String ThresholdType :=
  match members.find? (fun tt => tt.name == pyUpper s) with
  | some tt => .ok tt
  | none => .error ("Invalid name " ++ s)

end ThresholdType

/-- `ConfigType` enum (model.py). -/
inductive ConfigType
  | BOOLEAN | STRING | FLOAT | LIST_STRING | LIST_FLOAT | INTEGER
deriving DecidableEq, Repr, Fintype

namespace ConfigType

def name : ConfigType → String
  | .BOOLEAN => "BOOLEAN"
  | .STRING => "STRING"
  | .FLOAT => "FLOAT"
  | .LIST_STRING => "LIST_STRING"
  | .LIST_FLOAT => "LIST_FLOAT"
  | .INTEGER => "INTEGER"

def members : List ConfigType := [.BOOLEAN, .STRING, .FLOAT, .LIST_STRING, .LIST_FLOAT, .INTEGER]

def values : List String := members.map name

def from_name (s : String) : Except String ConfigType :=
  match members.find? (fun tt => tt.name == pyUpper s) with
  | some tt => .ok tt
  | none => .error ("Invalid name " ++ s)

end ConfigType

/-- `MetricStatus` enum (model.py). -/
inductive MetricStatus
  | OK | FAILED | WARNING | UNDETERMINED
deriving DecidableEq, Repr, Fintype

namespace MetricStatus

def name : MetricStatus → String
  | .OK => "OK"
  | .FAILED => "FAILED"
  | .WARNING => "WARNING"
  | .UNDETERMINED => "UNDETERMINED"

def members : List MetricStatus := [.OK, .FAILED, .WARNING, .UNDETERMINED]

def values : List String := members.map name

def from_name (s : String) : Except String MetricStatus :=
  match members.find? (fun tt => tt.name == pyUpper s) with
  | some tt => .ok tt
  | none => .error ("Invalid name " ++ s)

end MetricStatus

/-- `Frequency` enum (model.py). -/
inductive Frequency
  | DAILY | WEEKLY | MONTHLY | QUARTERLY
deriving DecidableEq, Repr, Fintype

namespace Frequency

def name : Frequency → String
  | .DAILY => "DAILY"
  | .WEEKLY => "WEEKLY"
  | .MONTHLY => "MONTHLY"
  | .QUARTERLY => "QUARTERLY"

def members : List Frequency := [.DAILY, .WEEKLY, .MONTHLY, .QUARTERLY]

def values : List String := members.map name

def from_name (s : String) : Except String Frequency :=
  match members.find? (fun tt => tt.name == pyUpper s) with
  | some tt => .ok tt
  | none => .error ("Invalid name " ++ s)

end Frequency

/-! ### Dates

`COB_DATE_FORMAT = '%Y-%m-%d'` (resources/common.py); `_datestr_to_datetime`
parses query-parameter dates with `datetime.strptime`. -/

/-- A calendar date, the payload of a parsed `%Y-%m-%d` string. -/
structure PyDate where
  year : Nat
  month : Nat
  day : Nat
deriving DecidableEq, Repr

def isLeapYear (y : Nat) : Bool := (y % 4 == 0 && y % 100 != 0) || y % 400 == 0

def daysInMonth (y m : Nat) : Nat :=
  if m == 2 then (if isLeapYear y then 29 else 28)
  else if m == 4 || m == 6 || m == 9 || m == 11 then 30
  else 31

def splitOnChar (c : Char) : List Char → List (List Char)
  | [] => [[]]
  | a :: as =>
    if a == c then [] :: splitOnChar c as
    else
      match splitOnChar c as with
      | [] => [[a]]
      | g :: gs => (a :: g) :: gs

/-- `datetime.strptime(s, '%Y-%m-%d')`: 1-4 digit year, 1-2 digit month and
day, with calendar validation; `none` models the raised `ValueError`. -/
def parsePyDate (s : String) : Option PyDate :=
  match splitOnChar '-' s.data with
  | [ys, ms, ds] =>
    match charsToNat? ys, charsToNat? ms, charsToNat? ds with
    | some y, some m, some d =>
      if ys.length ≤ 4 && ms.length ≤ 2 && ds.length ≤ 2 &&
          1 ≤ y && 1 ≤ m && m ≤ 12 && 1 ≤ d && d ≤ daysInMonth y m then
        some ⟨y, m, d⟩
      else none
    | _, _, _ => none
  | _ => none

/-- Total key for comparing dates the way `DateTime` columns compare. -/
def PyDate.toKey (d : PyDate) : Nat := d.year * 10000 + d.month * 100 + d.day

def PyDate.le (a b : PyDate) : Bool := a.toKey ≤ b.toKey

/-! ### 2. Model rows (model.py)

One structure per table.  The polymorphic `Metric` entity is one base-table
row plus an optional extension-table row (`quant_model_metric` /
`ml_model_metric`), modelled as a variant payload carried with the base
row.  The `metric_type` discriminator column stays an ordinary string
field, exactly as stored. -/

/-- Columns of the `quant_model_metric` extension table (model.py,
`QuantModelMetric`), minus the shared `metric_id`. -/
structure QuantModelFields where
  model_name : Option String := none
  asset_class : Option String := none
  pricing_library : Option String := none
  triggers_regulatory_notification : Bool := false
deriving DecidableEq, Repr

/-- Columns of the `ml_model_metric` extension table (model.py,
`MlModelMetric`), minus the shared `metric_id`. -/
structure MlModelFields where
  category : Option String := none
  sub_category : Option String := none
  algorithm : Option String := none
deriving DecidableEq, Repr

/-- The extension-table row joined to a base `metric` row, if any. -/
inductive MetricExt
  | base
  | quant (q : QuantModelFields)
  | ml (f : MlModelFields)
deriving DecidableEq, Repr

def MetricExt.isQuant : MetricExt → Bool
  | .quant _ => true
  | _ => false

def MetricExt.isMl : MetricExt → Bool
  | .ml _ => true
  | _ => false

/-- A row of the `metric` table (model.py, `Metric`), with its joined
extension row.  Field defaults mirror the column defaults. -/
structure MetricRow where
  metric_id : Int
  metric_type : String
  description : Option String := none
  threshold_type : ThresholdType := .GT
  threshold_value : String := ""
  is_active : Bool := false
  frequency : Frequency := .WEEKLY
  ext : MetricExt := .base
deriving DecidableEq, Repr

/-- A row of the `metric_config` table (model.py, `MetricConfig`). -/
structure MetricConfigRow where
  metric_id : Int
  config_name : String
  config_value : String
  config_type : ConfigType := .STRING
deriving DecidableEq, Repr

/-- A row of the `metric_run` table (model.py, `MetricRun`).  `run_id` is
`none` until the `uuid.uuid4` column default fires at insert. -/
structure MetricRunRow where
  run_id : Option String := none
  metric_id : Int
  threshold_type : ThresholdType := .GT
  threshold_value : String := "0"
  metric_value : String
  breach : Option Bool := none
  exec_time : Option PyDate := none
  status : MetricStatus := .UNDETERMINED
  message : Option String := none
deriving DecidableEq, Repr

/-- The database: one list per table. -/
structure GmState where
  metrics : List MetricRow := []
  configs : List MetricConfigRow := []
  runs : List MetricRunRow := []
deriving DecidableEq, Repr

/-- Column names defined on the `MetricRun` model; `cob_date` is NOT among
them (the model defines `exec_time` instead). -/
def metricRunColumns : List String :=
  ["run_id", "metric_id", "threshold_type", "threshold_value", "metric_value",
   "breach", "exec_time", "status", "message"]

/-- Date-typed columns of `MetricRun`.  The resources in runs.py refer to
`MetricRun.cob_date`; resolving a name that is not a model column is a
Python `AttributeError` (or SQLAlchemy `InvalidRequestError` in
`filter_by`). -/
inductive RunDateCol
  | exec_time
deriving DecidableEq, Repr

/-- Outcomes of a request handler: `abort(404)`, `abort(400)`, a reference
to a column the model does not define, and `one_or_none` finding more than
one row. -/
inductive ApiError
  | notFound (msg : String)
  | badRequest (msg : String)
  | missingColumn (name : String)
  | multipleResults
deriving DecidableEq, Repr

def resolveRunDateCol (colName : String) : Except ApiError RunDateCol :=
  if colName == "exec_time" then .ok .exec_time else .error (.missingColumn colName)

def MetricRunRow.dateCol (r : MetricRunRow) : RunDateCol → Option PyDate
  | .exec_time => r.exec_time

/-! ### JSON values

Request and response bodies.  Only the shapes the service actually moves
are represented: null, bool, int, string, and the plucked lists of strings
that `MetricSchema` emits for `configs`/`runs`. -/

inductive JValue
  | jnull
  | jbool (b : Bool)
  | jnum (n : Int)
  | jstr (s : String)
  | jlist (l : List String)
deriving DecidableEq, Repr

/-- A JSON object, as an association list in insertion order. -/
abbrev Json := List (String × JValue)

def jOptStr : Option String → JValue
  | some s => .jstr s
  | none => .jnull

/-- Python dict assignment `j[k] = v`: replace in place or append. -/
def setKey (j : Json) (k : String) (v : JValue) : Json :=
  if (j.lookup k).isSome then
    j.map (fun p => if p.1 == k then (k, v) else p)
  else j ++ [(k, v)]

/-! ### 3. Common resource helpers (resources/common.py) -/

/-- `get_metric_by_id` (common.py): `Metric.query.filter_by(metric_id=…)
.one_or_none()`, aborting 404 when no row matches.  It filters on
`metric_id` alone; no `metric_type` condition is involved. -/
def getMetricById (s : GmState) (metric_id : Int) : Except ApiError MetricRow :=
  match s.metrics.filter (fun m => m.metric_id == metric_id) with
  | [] => .error (.notFound ("Metric not found for Id: " ++ toString metric_id))
  | [m] => .ok m
  | _ :: _ :: _ => .error .multipleResults

/-! ### Marshmallow schema loads

`BaseResource.load` wraps `schema.load(...)`, turning a `ValidationError`
into `abort(400)`; loaders below return `Except String` (the error is the
validation message) and the resources lift it with `Except.mapError
ApiError.badRequest`.  Field-by-field behaviour follows the auto-generated
schemas in model.py: `metric_id` is a loadable `Integer` in
`QuantModelMetricSchema`/`MlModelMetricSchema` (it is `dump_only` only in
the base `MetricSchema`), enum fields are `EnumField(..., by_name=True)`
(exact-name match on load), unknown keys raise (marshmallow's default
`RAISE`), and loading the plucked `configs`/`runs` collections fails
because the nested schemas' required fields are absent from a plucked
name. -/

/-- Shared load behaviour of the base `Metric` columns, one JSON entry at a
time, applied to a (possibly fresh) instance. -/
def applyBaseMetricField (m : MetricRow) (kv : String × JValue) :
    Option (Except String MetricRow) :=
  match kv with
  | ("metric_id", .jnum n) => some (.ok { m with metric_id := n })
  | ("metric_id", .jstr v) =>
    some (match pyInt? v with
      | some n => .ok { m with metric_id := n }
      | none => .error "metric_id: Not a valid integer.")
  | ("metric_id", _) => some (.error "metric_id: Not a valid integer.")
  | ("metric_type", .jstr v) => some (.ok { m with metric_type := v })
  | ("metric_type", _) => some (.error "metric_type: Not a valid string.")
  | ("description", .jstr v) => some (.ok { m with description := some v })
  | ("description", .jnull) => some (.ok { m with description := none })
  | ("description", _) => some (.error "description: Not a valid string.")
  | ("threshold_type", .jstr v) =>
    some (match ThresholdType.members.find? (fun t => t.name == v) with
      | some t => .ok { m with threshold_type := t }
      | none => .error ("threshold_type: Invalid enum member " ++ v))
  | ("threshold_type", _) => some (.error "threshold_type: Invalid enum member")
  | ("threshold_value", .jstr v) => some (.ok { m with threshold_value := v })
  | ("threshold_value", _) => some (.error "threshold_value: Not a valid string.")
  | ("is_active", .jbool b) => some (.ok { m with is_active := b })
  | ("is_active", _) => some (.error "is_active: Not a valid boolean.")
  | ("frequency", .jstr v) =>
    some (match Frequency.members.find? (fun t => t.name == v) with
      | some t => .ok { m with frequency := t }
      | none => .error ("frequency: Invalid enum member " ++ v))
  | ("frequency", _) => some (.error "frequency: Invalid enum member")
  | ("configs", _) => some (.error "configs: invalid plucked collection")
  | ("runs", _) => some (.error "runs: invalid plucked collection")
  | _ => none

/-- Update a quant extension field.  When the instance is not a
`QuantModelMetric` the `setattr` lands on an unmapped Python attribute and
never reaches the database, so the row is unchanged. -/
def setQuantField (e : MetricExt) (f : QuantModelFields → QuantModelFields) : MetricExt :=
  match e with
  | .quant q => .quant (f q)
  | e => e

def setMlField (e : MetricExt) (f : MlModelFields → MlModelFields) : MetricExt :=
  match e with
  | .ml q => .ml (f q)
  | e => e

/-- One-entry load for `QuantModelMetricSchema`. -/
def applyQuantField (m : MetricRow) (kv : String × JValue) : Except String MetricRow :=
  match applyBaseMetricField m kv with
  | some r => r
  | none =>
    match kv with
    | ("model_name", .jstr v) =>
      .ok { m with ext := setQuantField m.ext (fun q => { q with model_name := some v }) }
    | ("asset_class", .jstr v) =>
      .ok { m with ext := setQuantField m.ext (fun q => { q with asset_class := some v }) }
    | ("pricing_library", .jstr v) =>
      .ok { m with ext := setQuantField m.ext (fun q => { q with pricing_library := some v }) }
    | ("triggers_regulatory_notification", .jbool b) =>
      .ok { m with ext := setQuantField m.ext (fun q => { q with triggers_regulatory_notification := b }) }
    | (k, _) => .error ("Unknown field " ++ k)

/-- One-entry load for `MlModelMetricSchema`. -/
def applyMlField (m : MetricRow) (kv : String × JValue) : Except String MetricRow :=
  match applyBaseMetricField m kv with
  | some r => r
  | none =>
    match kv with
    | ("category", .jstr v) =>
      .ok { m with ext := setMlField m.ext (fun q => { q with category := some v }) }
    | ("sub_category", .jstr v) =>
      .ok { m with ext := setMlField m.ext (fun q => { q with sub_category := some v }) }
    | ("algorithm", .jstr v) =>
      .ok { m with ext := setMlField m.ext (fun q => { q with algorithm := some v }) }
    | (k, _) => .error ("Unknown field " ++ k)

/-- `schema.load(data, session=…)` without `partial`: field-level loads
plus the required-field check (`metric_type` is the only non-nullable,
default-free base column). -/
def loadMetricNew (applyF : MetricRow → String × JValue → Except String MetricRow)
    (data : Json) (new0 : MetricRow) : Except String MetricRow :=
  if (data.lookup "metric_type").isNone then
    .error "metric_type: Missing data for required field."
  else data.foldlM applyF new0

/-! ### Schema dumps -/

/-- `QuantModelMetricSchema().dump`: every base field, the plucked
`configs`/`runs` collections, and the quant extension fields (null when the
instance carries no quant extension row). -/
def quantMetricDump (s : GmState) (m : MetricRow) : Json :=
  [("metric_id", .jnum m.metric_id),
   ("metric_type", .jstr m.metric_type),
   ("description", jOptStr m.description),
   ("threshold_type", .jstr m.threshold_type.name),
   ("threshold_value", .jstr m.threshold_value),
   ("is_active", .jbool m.is_active),
   ("frequency", .jstr m.frequency.name),
   ("configs", .jlist ((s.configs.filter (fun c => c.metric_id == m.metric_id)).map
      MetricConfigRow.config_name)),
   ("runs", .jlist ((s.runs.filter (fun r => r.metric_id == m.metric_id)).map
      (fun r => r.run_id.getD ""))),
   ("model_name", jOptStr (match m.ext with | .quant q => q.model_name | _ => none)),
   ("asset_class", jOptStr (match m.ext with | .quant q => q.asset_class | _ => none)),
   ("pricing_library", jOptStr (match m.ext with | .quant q => q.pricing_library | _ => none)),
   ("triggers_regulatory_notification",
      .jbool (match m.ext with | .quant q => q.triggers_regulatory_notification | _ => false))]

/-- `MlModelMetricSchema().dump`. -/
def mlMetricDump (s : GmState) (m : MetricRow) : Json :=
  [("metric_id", .jnum m.metric_id),
   ("metric_type", .jstr m.metric_type),
   ("description", jOptStr m.description),
   ("threshold_type", .jstr m.threshold_type.name),
   ("threshold_value", .jstr m.threshold_value),
   ("is_active", .jbool m.is_active),
   ("frequency", .jstr m.frequency.name),
   ("configs", .jlist ((s.configs.filter (fun c => c.metric_id == m.metric_id)).map
      MetricConfigRow.config_name)),
   ("runs", .jlist ((s.runs.filter (fun r => r.metric_id == m.metric_id)).map
      (fun r => r.run_id.getD ""))),
   ("category", jOptStr (match m.ext with | .ml q => q.category | _ => none)),
   ("sub_category", jOptStr (match m.ext with | .ml q => q.sub_category | _ => none)),
   ("algorithm", jOptStr (match m.ext with | .ml q => q.algorithm | _ => none))]

/-! ### 4. Metrics collection endpoints (resources/metrics.py) -/

/-- Query parameters of the metric list endpoints, as raw strings
(`request.args.get`). -/
structure MetricsArgs where
  is_active : Option String := none
  frequency : Option String := none
  threshold_type : Option String := none
  sort : Option String := none
  asset_class : Option String := none
  model_name : Option String := none
  pricing_library : Option String := none
  algorithm : Option String := none
deriving DecidableEq, Repr

def metricIdLe (x y : MetricRow) : Prop := x.metric_id ≤ y.metric_id

def metricIdGe (x y : MetricRow) : Prop := y.metric_id ≤ x.metric_id

instance : DecidableRel metricIdLe :=
  fun x y => inferInstanceAs (Decidable (x.metric_id ≤ y.metric_id))

instance : DecidableRel metricIdGe :=
  fun x y => inferInstanceAs (Decidable (y.metric_id ≤ x.metric_id))

instance : IsTotal MetricRow metricIdLe := ⟨fun a b => Int.le_total a.metric_id b.metric_id⟩

instance : IsTrans MetricRow metricIdLe :=
  ⟨fun _ _ _ h h' => Int.le_trans h h'⟩

instance : IsTotal MetricRow metricIdGe := ⟨fun a b => Int.le_total b.metric_id a.metric_id⟩

instance : IsTrans MetricRow metricIdGe :=
  ⟨fun _ _ _ h h' => Int.le_trans h' h⟩

/-- `order_by(Metric.metric_id)` / `order_by(Metric.metric_id.desc())`. -/
def sortMetrics (descend : Bool) (l : List MetricRow) : List MetricRow :=
  if descend then l.insertionSort metricIdGe else l.insertionSort metricIdLe

/-- The sort condition in `MetricsResource.build_query`:
`sort is not None and sort.lstrip("-") == 'metric_id'` selects descending
order; every other value of `sort` (including `None`) sorts ascending. -/
def metricsSortDescends : Option String → Bool
  | none => false
  | some sv => pyLstrip sv '-' == "metric_id"

/-- `MetricsResource.build_query` (metrics.py): produces the row predicate of
the base query; the ordering it installs is `metricsSortDescends`, applied
where the query runs.  Mirrors the source exactly: the
first condition is `Metric.metric_type == self.metric_type`; the
`is_active` branch rebinds the query from `Metric.query`, dropping every
condition installed before it; `frequency`/`threshold_type` go through
`from_name` and abort 400 on a bad enum name. -/
def buildQueryBase (selfMetricType : String) (a : MetricsArgs) :
    Except ApiError (MetricRow → Bool) := do
  let q0 : MetricRow → Bool := fun m => m.metric_type == selfMetricType
  let q1 : MetricRow → Bool :=
    match a.is_active with
    | none => q0
    | some v => fun m => m.is_active == (pyLower v == "true")
  let q2 : MetricRow → Bool ←
    match a.frequency with
    | none => pure q1
    | some f =>
      match Frequency.from_name f with
      | .ok fq => pure (fun m => q1 m && m.frequency == fq)
      | .error _ => .error (.badRequest ("Invalid " ++ sq ++ "frequency" ++ sq ++ ": " ++ f ++
          ". Use one of " ++ pyStrListRepr Frequency.values))
  let q3 : MetricRow → Bool ←
    match a.threshold_type with
    | none => pure q2
    | some tt =>
      match ThresholdType.from_name tt with
      | .ok t => pure (fun m => q2 m && m.threshold_type == t)
      | .error _ => .error (.badRequest ("Invalid " ++ sq ++ "threshold_type" ++ sq ++ ": " ++ tt ++
          ". Use one of " ++ pyStrListRepr ThresholdType.values))
  pure q3

/-- `QuantModelMetricsResource.get`/`build_query` (metrics.py), registered
in api.py with `metric_type='quant_model'`.  The subclass adds the join
`Metric.metric_id == QuantModelMetric.metric_id` (keeping exactly the rows
that own a `quant_model_metric` extension row) and the three
variant-specific equality filters. -/
def quantMetricsGet (s : GmState) (a : MetricsArgs) : Except ApiError (List MetricRow) := do
  let p ← buildQueryBase "quant_model" a
  let pj : MetricRow → Bool := fun m => p m && m.ext.isQuant
  let p1 : MetricRow → Bool :=
    match a.asset_class with
    | none => pj
    | some v => fun m => pj m &&
        (match m.ext with | .quant q => q.asset_class == some v | _ => false)
  let p2 : MetricRow → Bool :=
    match a.model_name with
    | none => p1
    | some v => fun m => p1 m &&
        (match m.ext with | .quant q => q.model_name == some v | _ => false)
  let p3 : MetricRow → Bool :=
    match a.pricing_library with
    | none => p2
    | some v => fun m => p2 m &&
        (match m.ext with | .quant q => q.pricing_library == some v | _ => false)
  pure (sortMetrics (metricsSortDescends a.sort) (s.metrics.filter p3))

/-- `MlModelMetricsResource.get`/`build_query` (metrics.py), registered in
api.py with `metric_type='ml_model'` — note that the model's polymorphic
identity is `'ml_model_metric'`, not `'ml_model'`. -/
def mlMetricsGet (s : GmState) (a : MetricsArgs) : Except ApiError (List MetricRow) := do
  let p ← buildQueryBase "ml_model" a
  let pj : MetricRow → Bool := fun m => p m && m.ext.isMl
  let p1 : MetricRow → Bool :=
    match a.algorithm with
    | none => pj
    | some v => fun m => pj m &&
        (match m.ext with | .ml q => q.algorithm == some v | _ => false)
  pure (sortMetrics (metricsSortDescends a.sort) (s.metrics.filter p1))

/-- `MetricsResource.post` (metrics.py), shared by both variant endpoints:
forces `json_data["metric_id"] = "TBD"` and `json_data["metric_type"] =
"model"` (both hardcoded), loads through the variant schema, then
adds/commits.  `new0` is the fresh instance the schema instantiates; the
insert assigns the next sequence id. -/
def metricsPost (applyF : MetricRow → String × JValue → Except String MetricRow)
    (new0 : MetricRow) (s : GmState) (data : Json) :
    Except ApiError (MetricRow × GmState) :=
  if data.isEmpty then .error (.badRequest "No input data provided")
  else do
    let newM ← (loadMetricNew applyF
      (setKey (setKey data "metric_id" (.jstr "TBD")) "metric_type" (.jstr "model"))
      new0).mapError ApiError.badRequest
    let nid := (s.metrics.map MetricRow.metric_id).foldl max 0 + 1
    let newM := { newM with metric_id := nid }
    pure (newM, { s with metrics := s.metrics ++ [newM] })

def quantMetricsPost (s : GmState) (data : Json) : Except ApiError (MetricRow × GmState) :=
  metricsPost applyQuantField { metric_id := 0, metric_type := "", ext := .quant {} } s data

def mlMetricsPost (s : GmState) (data : Json) : Except ApiError (MetricRow × GmState) :=
  metricsPost applyMlField { metric_id := 0, metric_type := "", ext := .ml {} } s data

/-! ### 5. Single-metric endpoints (resources/metrics.py) -/

/-- `MetricResource.get`: `get_metric_by_id` then `schema.jsonify`.  The
endpoint's `metric_type` binding plays no part. -/
def quantMetricGetOne (s : GmState) (metric_id : Int) : Except ApiError Json :=
  (getMetricById s metric_id).map (quantMetricDump s)

def mlMetricGetOne (s : GmState) (metric_id : Int) : Except ApiError Json :=
  (getMetricById s metric_id).map (mlMetricDump s)

/-- `MetricResource.put` (metrics.py): fetch by id, partial load of the
patch into the fetched instance, commit, then `return success(json_data)` —
the response payload is the raw patch, not a dump of the entity. -/
def metricPut (applyF : MetricRow → String × JValue → Except String MetricRow)
    (s : GmState) (metric_id : Int) (data : Json) :
    Except ApiError (Json × GmState) :=
  if data.isEmpty then .error (.badRequest "No input data provided")
  else do
    let m ← getMetricById s metric_id
    let m' ← (data.foldlM applyF m).mapError ApiError.badRequest
    let s' := { s with
      metrics := s.metrics.map (fun x => if x.metric_id == metric_id then m' else x) }
    pure (data, s')

def quantMetricPut (s : GmState) (metric_id : Int) (data : Json) :
    Except ApiError (Json × GmState) :=
  metricPut applyQuantField s metric_id data

def mlMetricPut (s : GmState) (metric_id : Int) (data : Json) :
    Except ApiError (Json × GmState) :=
  metricPut applyMlField s metric_id data

/-- `MetricResource.delete` (metrics.py): fetch by id, dump the pre-delete
snapshot, delete and commit.  The relationships `Metric.runs` and
`Metric.configs` carry `cascade="all, delete-orphan"`, so the commit also
removes every config and run row owned by the metric. -/
def metricDelete (dump : GmState → MetricRow → Json) (s : GmState) (metric_id : Int) :
    Except ApiError (Json × GmState) := do
  let m ← getMetricById s metric_id
  pure (dump s m,
    { metrics := s.metrics.filter (fun x => !(x.metric_id == metric_id)),
      configs := s.configs.filter (fun c => !(c.metric_id == metric_id)),
      runs := s.runs.filter (fun r => !(r.metric_id == metric_id)) })

def quantMetricDelete (s : GmState) (metric_id : Int) : Except ApiError (Json × GmState) :=
  metricDelete quantMetricDump s metric_id

def mlMetricDelete (s : GmState) (metric_id : Int) : Except ApiError (Json × GmState) :=
  metricDelete mlMetricDump s metric_id

/-! ### 6. Config endpoints (resources/configs.py) -/

/-- Partly-loaded `MetricConfigSchema` data: required fields are optional
until the presence check. -/
structure ConfigDraft where
  config_name : Option String := none
  config_value : Option String := none
  config_type : ConfigType := .STRING
deriving DecidableEq, Repr

/-- One-entry load for `MetricConfigSchema`.  `metric_id` is `dump_only`,
so supplying it (like any unknown key) raises. -/
def applyConfigField (d : ConfigDraft) (kv : String × JValue) : Except String ConfigDraft :=
  match kv with
  | ("config_name", .jstr v) => .ok { d with config_name := some v }
  | ("config_name", _) => .error "config_name: Not a valid string."
  | ("config_value", .jstr v) => .ok { d with config_value := some v }
  | ("config_value", _) => .error "config_value: Not a valid string."
  | ("config_type", .jstr v) =>
    match ConfigType.members.find? (fun t => t.name == v) with
    | some t => .ok { d with config_type := t }
    | none => .error ("config_type: Invalid enum member " ++ v)
  | ("config_type", _) => .error "config_type: Invalid enum member"
  | (k, _) => .error ("Unknown field " ++ k)

/-- `MetricConfigSchema().load(data, session=…)`: field loads plus the
required checks (`config_name` and `config_value` are non-nullable without
a column default). -/
def loadConfigNew (data : Json) : Except String (String × String × ConfigType) := do
  let d ← data.foldlM applyConfigField {}
  match d.config_name, d.config_value with
  | some n, some v => .ok (n, v, d.config_type)
  | _, _ => .error "Missing data for required field."

/-- `MetricsConfigResource.post` (configs.py): load the body, fetch the
owning metric (`abort(404)` when absent — nothing has been added to the
session at that point), attach, add, commit.  A duplicate
`(metric_id, config_name)` violates the composite primary key and commits
fail with `SQLAlchemyError`, surfaced as `abort(400)`. -/
def configsPost (s : GmState) (metric_id : Int) (data : Json) :
    Except ApiError (MetricConfigRow × GmState) :=
  if data.isEmpty then .error (.badRequest "No input data provided")
  else do
    let (n, v, ct) ← (loadConfigNew data).mapError ApiError.badRequest
    let metric ← getMetricById s metric_id
    if s.configs.any (fun c => c.metric_id == metric.metric_id && c.config_name == n) then
      .error (.badRequest "Database error. Reason: duplicate key")
    else
      let row : MetricConfigRow :=
        { metric_id := metric.metric_id, config_name := n, config_value := v, config_type := ct }
      pure (row, { s with configs := s.configs ++ [row] })

/-- `MetricConfigResource._get_metric_config_by_name` (configs.py). -/
def getConfigByName (s : GmState) (metric_id : Int) (config_name : String) :
    Except ApiError MetricConfigRow :=
  match s.configs.filter (fun c => c.metric_id == metric_id && c.config_name == config_name) with
  | [] => .error (.notFound ("Metric Config not found for metric_id: " ++ toString metric_id ++
      " and config name " ++ config_name))
  | [c] => .ok c
  | _ :: _ :: _ => .error .multipleResults

/-! ### 7. Run endpoints (resources/runs.py) -/

/-- Query parameters of `MetricRunsResource.get` (raw strings).  The `end`
query parameter is named `endDate` here because `end` is a Lean keyword. -/
structure RunsArgs where
  start : Option String := none
  endDate : Option String := none
  breach : Option String := none
  status : Option String := none
  sort : Option String := none
deriving DecidableEq, Repr

/-- `_datestr_to_datetime` (runs.py): `strptime` with `COB_DATE_FORMAT`,
aborting 400 with the label in the message when parsing fails. -/
def parseDateParam (label : String) (s : String) : Except ApiError PyDate :=
  match parsePyDate s with
  | some d => .ok d
  | none => .error (.badRequest ("Error parsing " ++ sq ++ label ++ sq ++ " to datetime"))

/-- Sort key for a date column; SQL sorts NULLs before every value in
ascending order here. -/
def runDateKey (c : RunDateCol) (r : MetricRunRow) : Nat :=
  match r.dateCol c with
  | some d => d.toKey + 1
  | none => 0

def runDateLe (c : RunDateCol) (x y : MetricRunRow) : Prop := runDateKey c x ≤ runDateKey c y

def runDateGe (c : RunDateCol) (x y : MetricRunRow) : Prop := runDateKey c y ≤ runDateKey c x

instance (c : RunDateCol) : DecidableRel (runDateLe c) :=
  fun x y => inferInstanceAs (Decidable (runDateKey c x ≤ runDateKey c y))

instance (c : RunDateCol) : DecidableRel (runDateGe c) :=
  fun x y => inferInstanceAs (Decidable (runDateKey c y ≤ runDateKey c x))

def sortRuns (c : RunDateCol) (descend : Bool) (l : List MetricRunRow) : List MetricRunRow :=
  if descend then l.insertionSort (runDateGe c) else l.insertionSort (runDateLe c)

/-- The `start` filter clause of `MetricRunsResource.get`:
`query.filter(MetricRun.cob_date >= start)` after parsing the date. -/
def runsStartClause : Option String → Except ApiError (MetricRunRow → Bool)
  | none => .ok (fun _ => true)
  | some ds => do
    let d ← parseDateParam "start" ds
    let c ← resolveRunDateCol "cob_date"
    .ok (fun r => match r.dateCol c with | some t => PyDate.le d t | none => false)

/-- The `end` filter clause: `query.filter(MetricRun.cob_date <= end)`. -/
def runsEndClause : Option String → Except ApiError (MetricRunRow → Bool)
  | none => .ok (fun _ => true)
  | some ds => do
    let d ← parseDateParam "end" ds
    let c ← resolveRunDateCol "cob_date"
    .ok (fun r => match r.dateCol c with | some t => PyDate.le t d | none => false)

/-- The `breach` filter clause: `query.filter_by(breach=…)` after the Python
`breach.lower() == 'true'` conversion (no failure possible). -/
def runsBreachClause : Option String → MetricRunRow → Bool
  | none => fun _ => true
  | some v => fun r => r.breach == some (pyLower v == "true")

/-- The `status` filter clause: `MetricStatus.from_name` with `abort(400)` on
a bad name, else `query.filter(MetricRun.status == metric_status)`. -/
def runsStatusClause : Option String → Except ApiError (MetricRunRow → Bool)
  | none => .ok (fun _ => true)
  | some v =>
    match MetricStatus.from_name v with
    | .ok ms => .ok (fun r => r.status == ms)
    | .error _ => .error (.badRequest ("Invalid " ++ sq ++ "status" ++ sq ++ ": " ++ v ++
        ". Use one of " ++ pyStrListRepr MetricStatus.values))

/-- The sort condition of `MetricRunsResource.get`:
`sort is not None and sort.lstrip("-").lower() == 'cob_date'`. -/
def runsSortDescends : Option String → Bool
  | none => false
  | some sv => pyLower (pyLstrip sv '-') == "cob_date"

/-- `MetricRunsResource.get` (runs.py): filters runs of one metric by
optional `start`/`end`/`breach`/`status` and sorts.  Every date filter and
both branches of the ordering refer to `MetricRun.cob_date` — a column the
`MetricRun` model does not define (it has `exec_time`), so building those
query clauses fails before any row is returned. -/
def metricRunsGet (s : GmState) (metric_id : Int) (a : RunsArgs) :
    Except ApiError (List MetricRunRow) := do
  let f1 ← runsStartClause a.start
  let f2 ← runsEndClause a.endDate
  let f4 ← runsStatusClause a.status
  let sc ← resolveRunDateCol "cob_date"
  pure (sortRuns sc (runsSortDescends a.sort)
    (((((s.runs.filter (fun r => r.metric_id == metric_id)).filter f1).filter f2).filter
        (runsBreachClause a.breach)).filter f4))

/-- Partly-loaded `MetricRunSchema` data. -/
structure RunDraft where
  run_id : Option String := none
  threshold_type : ThresholdType := .GT
  threshold_value : String := "0"
  metric_value : Option String := none
  breach : Option Bool := none
  exec_time : Option PyDate := none
  status : MetricStatus := .UNDETERMINED
  message : Option String := none
deriving DecidableEq, Repr

/-- One-entry load for `MetricRunSchema`.  `metric_id` is `dump_only`, so
supplying it raises, like any unknown key. -/
def applyRunField (d : RunDraft) (kv : String × JValue) : Except String RunDraft :=
  match kv with
  | ("run_id", .jstr v) => .ok { d with run_id := some v }
  | ("run_id", _) => .error "run_id: Not a valid UUID."
  | ("threshold_type", .jstr v) =>
    match ThresholdType.members.find? (fun t => t.name == v) with
    | some t => .ok { d with threshold_type := t }
    | none => .error ("threshold_type: Invalid enum member " ++ v)
  | ("threshold_type", _) => .error "threshold_type: Invalid enum member"
  | ("threshold_value", .jstr v) => .ok { d with threshold_value := v }
  | ("threshold_value", _) => .error "threshold_value: Not a valid string."
  | ("metric_value", .jstr v) => .ok { d with metric_value := some v }
  | ("metric_value", _) => .error "metric_value: Not a valid string."
  | ("breach", .jbool b) => .ok { d with breach := some b }
  | ("breach", .jnull) => .ok { d with breach := none }
  | ("breach", _) => .error "breach: Not a valid boolean."
  | ("exec_time", .jstr v) =>
    match parsePyDate v with
    | some t => .ok { d with exec_time := some t }
    | none => .error "exec_time: Not a valid datetime."
  | ("exec_time", .jnull) => .ok { d with exec_time := none }
  | ("exec_time", _) => .error "exec_time: Not a valid datetime."
  | ("status", .jstr v) =>
    match MetricStatus.members.find? (fun t => t.name == v) with
    | some t => .ok { d with status := t }
    | none => .error ("status: Invalid enum member " ++ v)
  | ("status", _) => .error "status: Invalid enum member"
  | ("message", .jstr v) => .ok { d with message := some v }
  | ("message", .jnull) => .ok { d with message := none }
  | ("message", _) => .error "message: Not a valid string."
  | (k, _) => .error ("Unknown field " ++ k)

/-- `MetricRunSchema().load(data, session=…)`: field loads plus the
required check (`metric_value` is the only non-nullable, default-free
column). -/
def loadRunNew (data : Json) : Except String MetricRunRow := do
  let d ← data.foldlM applyRunField {}
  match d.metric_value with
  | none => .error "metric_value: Missing data for required field."
  | some mv =>
    let r : MetricRunRow :=
      { run_id := d.run_id, metric_id := 0, threshold_type := d.threshold_type,
        threshold_value := d.threshold_value, metric_value := mv, breach := d.breach,
        exec_time := d.exec_time, status := d.status, message := d.message }
    .ok r

/-- `MetricRunsResource.post` (runs.py): load the body, fetch the owning
metric (`abort(404)` when absent — nothing persisted at that point),
attach, add, commit.  The `uuid.uuid4` column default is modelled by a
deterministic fresh token. -/
def runsPost (s : GmState) (metric_id : Int) (data : Json) :
    Except ApiError (MetricRunRow × GmState) :=
  if data.isEmpty then .error (.badRequest "No input data provided")
  else do
    let loaded ← (loadRunNew data).mapError ApiError.badRequest
    let metric ← getMetricById s metric_id
    let rid := match loaded.run_id with
      | some v => v
      | none => "uuid-" ++ toString s.runs.length
    let row := { loaded with metric_id := metric.metric_id, run_id := some rid }
    pure (row, { s with runs := s.runs ++ [row] })

/-- `MetricRunResource._get_metric_result_by_date` (runs.py): parses the
`cob_date` path segment, then queries
`filter_by(metric_id=…, cob_date=…)`.  `cob_date` is not a column of
`MetricRun`, so building the query raises before any lookup happens. -/
def getRunByDate (s : GmState) (metric_id : Int) (cob_date : String) :
    Except ApiError MetricRunRow := do
  let d ← parseDateParam "cob_date" cob_date
  let c ← resolveRunDateCol "cob_date"
  match s.runs.filter (fun r => r.metric_id == metric_id && r.dateCol c == some d) with
  | [] => .error (.notFound ("No Result found for metric_id " ++ toString metric_id ++
      " and cob_date " ++ cob_date))
  | [r] => .ok r
  | _ :: _ :: _ => .error .multipleResults

/-! ### 8. Concrete scenario states

Small stores used to instantiate the theorems below.  Each group of
definitions belongs to one scenario. -/

/-- An active ml-model metric as the ORM stores it: discriminator
`'ml_model_metric'` (the polymorphic identity) with an `ml_model_metric`
extension row. -/
def c1MlMetric : MetricRow :=
  { metric_id := 7, metric_type := "ml_model_metric", is_active := true,
    ext := .ml { algorithm := some "xgboost" } }

def c1State : GmState := { metrics := [c1MlMetric] }

/-- A quant metric with a config and a run attached. -/
def c4Metric : MetricRow :=
  { metric_id := 3, metric_type := "quant_model", description := some "pnl check",
    ext := .quant { model_name := some "HW1F" } }

def c4State : GmState :=
  { metrics := [c4Metric],
    configs := [{ metric_id := 3, config_name := "window", config_value := "30" }],
    runs := [{ metric_id := 3, metric_value := "0.5", run_id := some "r-1" }] }

/-- Delete scenario: one metric owning two configs and one run. -/
def c5Metric : MetricRow :=
  { metric_id := 1, metric_type := "quant_model", ext := .quant {} }

def c5State : GmState :=
  { metrics := [c5Metric],
    configs := [{ metric_id := 1, config_name := "a", config_value := "x" },
                { metric_id := 1, config_name := "b", config_value := "y" }],
    runs := [{ metric_id := 1, metric_value := "9", run_id := some "run-9" }] }

def c6M1 : MetricRow := { metric_id := 1, metric_type := "quant_model", ext := .quant {} }

def c6M2 : MetricRow := { metric_id := 2, metric_type := "quant_model", ext := .quant {} }

def c6State : GmState := { metrics := [c6M1, c6M2] }

def c8Metric : MetricRow :=
  { metric_id := 1, metric_type := "quant_model", description := some "vol check",
    threshold_value := "0.1", frequency := .DAILY,
    ext := .quant { model_name := some "LV", asset_class := some "Equities",
                    pricing_library := some "ql" } }

def c8State : GmState := { metrics := [c8Metric] }

def c8Patch : Json := [("is_active", .jbool true)]

def c8Updated : MetricRow := { c8Metric with is_active := true }

/-- An ml-typed metric, to be reached through the quant-variant endpoints. -/
def c10Metric : MetricRow :=
  { metric_id := 4, metric_type := "ml_model_metric",
    ext := .ml { category := some "drift" } }

def c10State : GmState := { metrics := [c10Metric] }

/-! ### 9. Helper lemmas -/

theorem lookup_isSome_mem (k : String) (j : Json) (hs : (j.lookup k).isSome) :
    ∃ v₀, (k, v₀) ∈ j := by
  induction j with
  | nil => simp [List.lookup] at hs
  | cons p rest ih =>
    rcases p with ⟨k₀, v₀⟩
    by_cases hk : k = k₀
    · exact ⟨v₀, by simp [hk]⟩
    · have hbeq : (k == k₀) = false := beq_eq_false_iff_ne.mpr hk
      have hs' : (rest.lookup k).isSome := by simpa [List.lookup, hbeq] using hs
      obtain ⟨v₁, hv₁⟩ := ih hs'
      exact ⟨v₁, List.mem_cons_of_mem _ hv₁⟩

theorem mem_setKey_self (j : Json) (k : String) (v : JValue) : (k, v) ∈ setKey j k v := by
  unfold setKey
  split
  case isTrue hs =>
    obtain ⟨v₀, hv₀⟩ := lookup_isSome_mem k j hs
    have := List.mem_map_of_mem (fun p => if p.1 == k then (k, v) else p) hv₀
    simpa using this
  case isFalse _ => exact List.mem_append_right _ (by simp)

theorem mem_setKey_of_ne (j : Json) {k' : String} {v' : JValue} (k : String) (v : JValue)
    (hne : k' ≠ k) (hm : (k', v') ∈ j) : (k', v') ∈ setKey j k v := by
  unfold setKey
  split
  · have := List.mem_map_of_mem (fun p => if p.1 == k then (k, v) else p) hm
    simpa [hne] using this
  · exact List.mem_append_left _ hm

/-- If some entry of the list makes the folded step fail no matter the
accumulator, the monadic fold fails. -/
theorem foldlM_error_of_mem {α β : Type} (f : β → α → Except String β) (x : α)
    (e : String) (hx : ∀ b, f b x = .error e) :
    ∀ (l : List α) (b : β), x ∈ l → ∃ msg, l.foldlM f b = .error msg := by
  intro l
  induction l with
  | nil => intro b h; cases h
  | cons p rest ih =>
    intro b h
    rw [List.foldlM_cons]
    cases hfp : f b p with
    | error msg => exact ⟨msg, rfl⟩
    | ok b' =>
      rcases List.mem_cons.mp h with rfl | hmem
      · rw [hx b] at hfp; cases hfp
      · obtain ⟨msg, hmsg⟩ := ih b' hmem
        exact ⟨msg, hmsg⟩

theorem filter_eq_single_mem {α : Type} {p : α → Bool} {l : List α} {m : α}
    (h : l.filter p = [m]) : ∀ x ∈ l, p x = true → x = m := by
  intro x hx hpx
  have : x ∈ l.filter p := List.mem_filter.mpr ⟨hx, hpx⟩
  rw [h] at this
  simpa using this

theorem getMetricById_ok {s : GmState} {mid : Int} {m : MetricRow}
    (h : getMetricById s mid = .ok m) :
    s.metrics.filter (fun x => x.metric_id == mid) = [m] := by
  unfold getMetricById at h
  split at h
  · cases h
  case h_2 x heq => rw [heq]; cases h; rfl
  · cases h

theorem getMetricById_of_filter {s : GmState} {mid : Int} {m : MetricRow}
    (h : s.metrics.filter (fun x => x.metric_id == mid) = [m]) :
    getMetricById s mid = .ok m := by
  unfold getMetricById
  rw [h]

theorem getMetricById_of_absent {s : GmState} {mid : Int}
    (h : ∀ x ∈ s.metrics, x.metric_id ≠ mid) :
    getMetricById s mid = .error (.notFound ("Metric not found for Id: " ++ toString mid)) := by
  have : s.metrics.filter (fun x => x.metric_id == mid) = [] := by
    rw [List.filter_eq_nil_iff]
    intro x hx
    simp [h x hx]
  unfold getMetricById
  rw [this]

/-! ### 10. Claim theorems -/

/-- C9: `is_range(t)` is true exactly when `t` is one of RANGE, RANGE_LO,
RANGE_RO, RANGE_LRO, and `is_set(t)` exactly when `t` is IN or NOT_IN; both
predicates are false on every other `ThresholdType` member. -/
theorem thresholdType_is_range_is_set_exact :
    ∀ t : ThresholdType,
      (t.is_range = (t == .RANGE || t == .RANGE_LO || t == .RANGE_RO || t == .RANGE_LRO)) ∧
      (t.is_set = (t == .IN || t == .NOT_IN)) := by decide

/-- C7 counterexample: `from_name("bogus")` raises `ValueError` with message
`Invalid name bogus`; the message does not mention the legal member name
`GTE`, so it does not list all legal variant names as the claim states. -/
theorem from_name_error_message_lists_no_names :
    ThresholdType.from_name "bogus" = .error "Invalid name bogus" ∧
    "GTE" ∈ ThresholdType.values ∧
    msgMentions "Invalid name bogus" "GTE" = false := by decide

/-- C7 amended: `from_name` is case-insensitive — the canonical, lowercase and
uppercase forms of every valid name yield the same member — and every string
matching no member name case-insensitively fails with
`ValueError('Invalid name <s>')`; the message names only the offending input,
while the list of legal names is available separately via `values()` (and is
appended by the HTTP layer when it catches the error). -/
theorem from_name_case_insensitive :
    (∀ t : ThresholdType,
      ThresholdType.from_name t.name = .ok t ∧
      ThresholdType.from_name (pyLower t.name) = .ok t ∧
      ThresholdType.from_name (pyUpper t.name) = .ok t) ∧
    (∀ s : String, (∀ t : ThresholdType, t.name ≠ pyUpper s) →
      ThresholdType.from_name s = .error ("Invalid name " ++ s)) := by
  constructor
  · decide
  · intro s h
    have hf : ThresholdType.members.find? (fun tt => tt.name == pyUpper s) = none := by
      rw [List.find?_eq_none]
      intro t _
      simpa using h t
    unfold ThresholdType.from_name
    rw [hf]

/-- Witness for the amended C7 theorem at the concrete input `"bogus"`. -/
theorem from_name_case_insensitive_witness :
    (∀ t : ThresholdType, t.name ≠ pyUpper "bogus") ∧
    ThresholdType.from_name "bogus" = .error ("Invalid name " ++ "bogus") :=
  ⟨by decide, from_name_case_insensitive.2 "bogus" (by decide)⟩

/-- C1 (code bug): api.py binds the ml list endpoint to
`metric_type='ml_model'` while the model's polymorphic identity is
`'ml_model_metric'`, so the mandatory metric-type restriction never matches a
stored ml metric and the endpoint returns the empty list; and when
`is_active` is supplied, `build_query` rebinds the query from `Metric.query`,
dropping the metric-type condition, and the endpoint returns a metric whose
`metric_type` differs from the operation's metric-type argument — refuting
the claim that every returned metric carries the operation's metric type with
all supplied filters composed conjunctively. -/
theorem listMetrics_ml_type_filter_broken :
    mlMetricsGet c1State {} = .ok [] ∧
    mlMetricsGet c1State { is_active := some "true" } = .ok [c1MlMetric] ∧
    c1MlMetric.is_active = true ∧
    c1MlMetric.metric_type ≠ "ml_model" := by decide

/-- C6 counterexample: the claim requires descending order exactly for the
prefixed marker `-metric_id` and ascending for any other sort value, but
supplying the unprefixed `sort=metric_id` also yields descending order,
because the source merely compares `sort.lstrip("-") == 'metric_id'`. -/
theorem listMetrics_sort_unprefixed_descends :
    (quantMetricsGet c6State { sort := some "metric_id" }).map (List.map MetricRow.metric_id) =
      .ok [2, 1] ∧
    (quantMetricsGet c6State {}).map (List.map MetricRow.metric_id) = .ok [1, 2] ∧
    some "metric_id" ≠ some "-metric_id" ∧
    ([2, 1] : List Int) ≠ [1, 2] := by decide

theorem exceptBind_ok {ε α β : Type} (a : α) (f : α → Except ε β) :
    (Except.ok a >>= f) = f a := rfl

theorem exceptBind_error {ε α β : Type} (e : ε) (f : α → Except ε β) :
    ((Except.error e : Except ε α) >>= f) = Except.error e := rfl

/-- C6 amended: the listing is ordered by `metric_id` descending exactly when
the supplied sort value equals `metric_id` after stripping every leading `-`
(so `-metric_id`, the bare `metric_id`, `--metric_id`, … all descend), and
ascending by `metric_id` for any other value and when no sort is supplied;
the ordering is a deterministic function of the store and the arguments. -/
theorem listMetrics_sort_lstrip_characterization :
    ∀ (s : GmState) (a : MetricsArgs) (l : List MetricRow),
      quantMetricsGet s a = .ok l →
      (metricsSortDescends a.sort = true → l.Sorted metricIdGe) ∧
      (metricsSortDescends a.sort = false → l.Sorted metricIdLe) := by
  intro s a l h
  unfold quantMetricsGet at h
  cases hb : buildQueryBase "quant_model" a with
  | error e => rw [hb, exceptBind_error] at h; cases h
  | ok p =>
    rw [hb, exceptBind_ok] at h
    obtain ⟨pl, rfl⟩ : ∃ pl, l = sortMetrics (metricsSortDescends a.sort) pl :=
      ⟨_, (Except.ok.inj h).symm⟩
    constructor
    · intro hd
      unfold sortMetrics
      rw [hd, if_pos rfl]
      exact List.sorted_insertionSort metricIdGe pl
    · intro hd
      unfold sortMetrics
      rw [hd]
      simpa using List.sorted_insertionSort metricIdLe pl

/-- Witness for the amended C6 theorem: the descending branch at the concrete
store `c6State` with `sort=-metric_id`. -/
theorem listMetrics_sort_lstrip_characterization_witness :
    (metricsSortDescends (MetricsArgs.sort { sort := some "-metric_id" }) = true →
      List.Sorted metricIdGe [c6M2, c6M1]) ∧
    (metricsSortDescends (MetricsArgs.sort { sort := some "-metric_id" }) = false →
      List.Sorted metricIdLe [c6M2, c6M1]) :=
  listMetrics_sort_lstrip_characterization c6State { sort := some "-metric_id" }
    [c6M2, c6M1] (by decide)

/-- C2 (code bug): `MetricsResource.post` hardcodes
`json_data["metric_id"] = "TBD"` and `json_data["metric_type"] = "model"`
before loading — `"model"` is neither endpoint's binding and matches no
polymorphic identity, and `"TBD"` is no integer, so the schema load always
raises `ValidationError` (HTTP 400): no create ever persists a metric, let
alone one carrying the operation's metric type. -/
theorem createMetric_never_persists :
    ∀ (s : GmState) (data : Json),
      (∃ msg, quantMetricsPost s data = .error (.badRequest msg)) ∧
      (∃ msg, mlMetricsPost s data = .error (.badRequest msg)) := by
  have key : ∀ (applyF : MetricRow → String × JValue → Except String MetricRow),
      (∀ m, applyF m ("metric_id", JValue.jstr "TBD") = .error "metric_id: Not a valid integer.") →
      ∀ (new0 : MetricRow) (s : GmState) (data : Json),
        ∃ msg, metricsPost applyF new0 s data = .error (.badRequest msg) := by
    intro applyF hF new0 s data
    by_cases hd : data.isEmpty
    · exact ⟨"No input data provided", by unfold metricsPost; rw [if_pos hd]⟩
    · have hmem : ("metric_id", JValue.jstr "TBD") ∈
          setKey (setKey data "metric_id" (.jstr "TBD")) "metric_type" (.jstr "model") :=
        mem_setKey_of_ne _ _ _ (by decide) (mem_setKey_self data _ _)
      have hload : ∃ msg, loadMetricNew applyF
          (setKey (setKey data "metric_id" (.jstr "TBD")) "metric_type" (.jstr "model")) new0 =
          .error msg := by
        unfold loadMetricNew
        by_cases hmt : ((setKey (setKey data "metric_id" (.jstr "TBD")) "metric_type"
            (.jstr "model")).lookup "metric_type").isNone
        · exact ⟨_, by rw [if_pos hmt]⟩
        · obtain ⟨msg, hmsg⟩ :=
            foldlM_error_of_mem applyF _ _ hF _ new0 hmem
          exact ⟨msg, by rw [if_neg hmt]; exact hmsg⟩
      obtain ⟨msg, hmsg⟩ := hload
      refine ⟨msg, ?_⟩
      unfold metricsPost
      rw [if_neg hd, hmsg]
      rfl
  intro s data
  exact ⟨key applyQuantField (fun m => rfl) _ s data, key applyMlField (fun m => rfl) _ s data⟩

/-- C3 (code bug): every `listRuns` call fails.  The `start`/`end` filters
and both branches of the ordering refer to `MetricRun.cob_date`, a column the
`MetricRun` model does not define (it defines `exec_time`), so after any
supplied dates parse the handler raises on the missing column instead of
returning the metric's runs filtered by `exec_time`; a malformed date aborts
400 first.  No call returns a result list. -/
theorem listRuns_always_fails :
    ∀ (s : GmState) (mid : Int) (a : RunsArgs),
      metricRunsGet s mid a = .error (.missingColumn "cob_date") ∨
      (∃ msg, metricRunsGet s mid a = .error (.badRequest msg)) := by
  have startErr : ∀ arg e, runsStartClause arg = .error e →
      e = .missingColumn "cob_date" ∨ ∃ msg, e = .badRequest msg := by
    intro arg e h
    cases arg with
    | none => cases h
    | some ds =>
      simp only [runsStartClause, parseDateParam] at h
      cases hp : parsePyDate ds with
      | none => rw [hp] at h; exact .inr ⟨_, (Except.error.inj h).symm⟩
      | some d => rw [hp] at h; exact .inl (Except.error.inj h).symm
  have endErr : ∀ arg e, runsEndClause arg = .error e →
      e = .missingColumn "cob_date" ∨ ∃ msg, e = .badRequest msg := by
    intro arg e h
    cases arg with
    | none => cases h
    | some ds =>
      simp only [runsEndClause, parseDateParam] at h
      cases hp : parsePyDate ds with
      | none => rw [hp] at h; exact .inr ⟨_, (Except.error.inj h).symm⟩
      | some d => rw [hp] at h; exact .inl (Except.error.inj h).symm
  have statusErr : ∀ arg e, runsStatusClause arg = .error e → ∃ msg, e = .badRequest msg := by
    intro arg e h
    cases arg with
    | none => cases h
    | some v =>
      simp only [runsStatusClause] at h
      cases hfn : MetricStatus.from_name v with
      | ok ms => rw [hfn] at h; cases h
      | error e' => rw [hfn] at h; exact ⟨_, (Except.error.inj h).symm⟩
  intro s mid a
  unfold metricRunsGet
  cases h1 : runsStartClause a.start with
  | error e =>
    rcases startErr _ _ h1 with rfl | ⟨msg, rfl⟩
    · left; rfl
    · right; exact ⟨msg, rfl⟩
  | ok f1 =>
    cases h2 : runsEndClause a.endDate with
    | error e =>
      rcases endErr _ _ h2 with rfl | ⟨msg, rfl⟩
      · left; rfl
      · right; exact ⟨msg, rfl⟩
    | ok f2 =>
      cases h4 : runsStatusClause a.status with
      | error e =>
        rcases statusErr _ _ h4 with ⟨msg, rfl⟩
        right; exact ⟨msg, rfl⟩
      | ok f4 => left; rfl

/-- Core of the partial-update frame property: a PUT whose body is exactly
`{"is_active": b}` commits a state in which only the addressed metric's
`is_active` column changed, provided the schema loads `is_active` as a plain
boolean column set (which both variant schemas do). -/
theorem metricPut_is_active_frame
    (applyF : MetricRow → String × JValue → Except String MetricRow)
    (hF : ∀ m b, applyF m ("is_active", JValue.jbool b) = .ok { m with is_active := b })
    (s : GmState) (mid : Int) (m : MetricRow) (b : Bool)
    (hf : s.metrics.filter (fun x => x.metric_id == mid) = [m]) :
    metricPut applyF s mid [("is_active", .jbool b)] =
      .ok ([("is_active", .jbool b)],
        { s with metrics := s.metrics.map (fun x => if x.metric_id == mid then { x with is_active := b } else x) }) := by
  have hlhs : metricPut applyF s mid [("is_active", .jbool b)] =
      .ok ([("is_active", .jbool b)],
        { s with metrics := s.metrics.map (fun x => if x.metric_id == mid then { m with is_active := b } else x) }) := by
    unfold metricPut
    rw [if_neg (by simp), getMetricById_of_filter hf]
    simp only [exceptBind_ok]
    rw [List.foldlM_cons, hF m b]
    rfl
  have hcong : s.metrics.map (fun x => if x.metric_id == mid then { m with is_active := b } else x) =
      s.metrics.map (fun x => if x.metric_id == mid then { x with is_active := b } else x) :=
    List.map_congr_left (fun x hx => by
      by_cases hxm : (x.metric_id == mid) = true
      · rw [if_pos hxm, if_pos hxm, filter_eq_single_mem hf x hx hxm]
      · rw [if_neg hxm, if_neg hxm])
  rw [hlhs, hcong]

/-- C4: for every stored metric and a partial update whose patch carries only
`is_active`, the commit changes exactly that column of the addressed row;
every other column of every metric keeps its prior value and the `configs`
and `runs` tables are untouched — through both variant endpoints. -/
theorem updateMetric_is_active_only_frame :
    ∀ (s : GmState) (mid : Int) (m : MetricRow) (b : Bool),
      getMetricById s mid = .ok m →
      quantMetricPut s mid [("is_active", .jbool b)] =
        .ok ([("is_active", .jbool b)],
          { s with metrics := s.metrics.map (fun x => if x.metric_id == mid then { x with is_active := b } else x) }) ∧
      mlMetricPut s mid [("is_active", .jbool b)] =
        .ok ([("is_active", .jbool b)],
          { s with metrics := s.metrics.map (fun x => if x.metric_id == mid then { x with is_active := b } else x) }) := by
  intro s mid m b hm
  have hf := getMetricById_ok hm
  exact ⟨metricPut_is_active_frame applyQuantField (fun _ _ => rfl) s mid m b hf,
         metricPut_is_active_frame applyMlField (fun _ _ => rfl) s mid m b hf⟩

/-- Witness for C4 at the concrete store `c4State`: flipping `is_active` of
metric 3 leaves its description, extension fields, config and run untouched. -/
theorem updateMetric_is_active_only_frame_witness :
    quantMetricPut c4State 3 [("is_active", .jbool true)] =
      .ok ([("is_active", .jbool true)],
        { c4State with metrics := c4State.metrics.map (fun x => if x.metric_id == 3 then { x with is_active := true } else x) }) ∧
    mlMetricPut c4State 3 [("is_active", .jbool true)] =
      .ok ([("is_active", .jbool true)],
        { c4State with metrics := c4State.metrics.map (fun x => if x.metric_id == 3 then { x with is_active := true } else x) }) :=
  updateMetric_is_active_only_frame c4State 3 c4Metric true (by decide)

/-- C8 counterexample: at `c8State` the update `{"is_active": true}` of
metric 1 succeeds and the response payload is exactly that one-key patch —
not the serialized updated entity, which carries `description`,
`metric_type` and the other columns the patch lacks. -/
theorem updateMetric_response_not_entity :
    quantMetricPut c8State 1 c8Patch = .ok (c8Patch, { c8State with metrics := [c8Updated] }) ∧
    c8Patch ≠ quantMetricDump { c8State with metrics := [c8Updated] } c8Updated ∧
    c8Patch.lookup "description" = none ∧
    (quantMetricDump { c8State with metrics := [c8Updated] } c8Updated).lookup "description" =
      some (.jstr "vol check") := by decide

/-- C8 amended: on every successful partial update the response body wrapped
by `success(...)` is exactly the JSON patch the client supplied
(`return success(json_data)`); the merged entity is committed but not
returned. -/
theorem updateMetric_returns_patch :
    ∀ (applyF : MetricRow → String × JValue → Except String MetricRow)
      (s : GmState) (mid : Int) (data resp : Json) (s' : GmState),
      metricPut applyF s mid data = .ok (resp, s') → resp = data := by
  intro applyF s mid data resp s' h
  unfold metricPut at h
  split at h
  · cases h
  · cases hm : getMetricById s mid with
    | error e => rw [hm] at h; cases h
    | ok m =>
      rw [hm] at h
      simp only [exceptBind_ok] at h
      cases hl : (data.foldlM applyF m).mapError ApiError.badRequest with
      | error e => rw [hl] at h; cases h
      | ok m' =>
        rw [hl] at h
        exact (congrArg Prod.fst (Except.ok.inj h)).symm

/-- Witness for the amended C8 theorem at `c8State`. -/
theorem updateMetric_returns_patch_witness :
    metricPut applyQuantField c8State 1 c8Patch =
      .ok (c8Patch, { c8State with metrics := [c8Updated] }) ∧
    c8Patch = c8Patch :=
  ⟨by decide, updateMetric_returns_patch applyQuantField c8State 1 c8Patch c8Patch
      { c8State with metrics := [c8Updated] } (by decide)⟩

/-- C5 (code bug; cascade and config halves proved): a valid config or run
create under a non-existent metric id aborts 404 from `get_metric_by_id`
before anything reaches the session, so nothing is persisted (no success
state exists); deleting a metric removes it and, through
`cascade="all, delete-orphan"`, every one of its config and run rows in the
same commit, after which a former config is fetched as `NotFound`; but the
claim's run half fails: fetching a run by its key never yields `NotFound`
(nor a row) because `_get_metric_result_by_date` filters on the
`cob_date` column the model does not define and raises instead. -/
theorem metric_children_lifecycle :
    (∀ (s : GmState) (mid : Int) (data : Json) (r : String × String × ConfigType),
      loadConfigNew data = .ok r → (∀ x ∈ s.metrics, x.metric_id ≠ mid) →
      configsPost s mid data = .error (.notFound ("Metric not found for Id: " ++ toString mid))) ∧
    (∀ (s : GmState) (mid : Int) (data : Json) (r : MetricRunRow),
      loadRunNew data = .ok r → (∀ x ∈ s.metrics, x.metric_id ≠ mid) →
      runsPost s mid data = .error (.notFound ("Metric not found for Id: " ++ toString mid))) ∧
    (∀ (s : GmState) (mid : Int) (m : MetricRow),
      getMetricById s mid = .ok m →
      quantMetricDelete s mid = .ok (quantMetricDump s m,
        { metrics := s.metrics.filter (fun x => !(x.metric_id == mid)),
          configs := s.configs.filter (fun c => !(c.metric_id == mid)),
          runs := s.runs.filter (fun r => !(r.metric_id == mid)) }) ∧
      (∀ cname : String, getConfigByName
          { metrics := s.metrics.filter (fun x => !(x.metric_id == mid)),
            configs := s.configs.filter (fun c => !(c.metric_id == mid)),
            runs := s.runs.filter (fun r => !(r.metric_id == mid)) } mid cname =
        .error (.notFound ("Metric Config not found for metric_id: " ++ toString mid ++
          " and config name " ++ cname)))) ∧
    (∀ (s : GmState) (mid : Int) (ds : String) (r : MetricRunRow),
      getRunByDate s mid ds ≠ .ok r) := by
  refine ⟨?_, ?_, ?_, ?_⟩
  · intro s mid data r hld habs
    obtain ⟨n, v, ct⟩ := r
    have hne : ¬(data.isEmpty = true) := by
      cases data with
      | nil => cases hld
      | cons p rest => simp
    unfold configsPost
    rw [if_neg hne, hld, getMetricById_of_absent habs]
    rfl
  · intro s mid data r hld habs
    have hne : ¬(data.isEmpty = true) := by
      cases data with
      | nil => cases hld
      | cons p rest => simp
    unfold runsPost
    rw [if_neg hne, hld, getMetricById_of_absent habs]
    rfl
  · intro s mid m hm
    constructor
    · unfold quantMetricDelete metricDelete
      rw [hm]
      rfl
    · intro cname
      have hcfg : (s.configs.filter (fun c => !(c.metric_id == mid))).filter
          (fun c => c.metric_id == mid && c.config_name == cname) = [] := by
        rw [List.filter_eq_nil_iff]
        intro c hc
        have hpc := (List.mem_filter.mp hc).2
        simp only [Bool.not_eq_eq_eq_not, Bool.not_true] at hpc
        simp [hpc]
      simp only [getConfigByName]
      rw [hcfg]
  · intro s mid ds r h
    unfold getRunByDate parseDateParam at h
    cases hp : parsePyDate ds with
    | none => rw [hp] at h; cases h
    | some d => rw [hp] at h; cases h

/-- Witness for C5: creates under the missing metric 5 abort 404; after
deleting metric 1 of `c5State` its config `"a"` is gone (404); the run
lookup by date never returns a run. -/
theorem metric_children_lifecycle_witness :
    configsPost { metrics := [] } 5 [("config_name", .jstr "a"), ("config_value", .jstr "b")] =
      .error (.notFound ("Metric not found for Id: " ++ toString (5 : Int))) ∧
    runsPost { metrics := [] } 5 [("metric_value", .jstr "1.0")] =
      .error (.notFound ("Metric not found for Id: " ++ toString (5 : Int))) ∧
    getConfigByName
        { metrics := c5State.metrics.filter (fun x => !(x.metric_id == 1)),
          configs := c5State.configs.filter (fun c => !(c.metric_id == 1)),
          runs := c5State.runs.filter (fun r => !(r.metric_id == 1)) } 1 "a" =
      .error (.notFound ("Metric Config not found for metric_id: " ++ toString (1 : Int) ++
        " and config name " ++ "a")) ∧
    getRunByDate c5State 1 "2024-01-01" ≠
      .ok { metric_id := 1, metric_value := "9", run_id := some "run-9" } :=
  ⟨metric_children_lifecycle.1 { metrics := [] } 5 _ ("a", "b", .STRING) (by decide) (by decide),
   metric_children_lifecycle.2.1 { metrics := [] } 5 _
     { run_id := none, metric_id := 0, metric_value := "1.0" } (by decide) (by decide),
   (metric_children_lifecycle.2.2.1 c5State 1 c5Metric (by decide)).2 "a",
   metric_children_lifecycle.2.2.2 c5State 1 "2024-01-01" _⟩

/-- C10: the single-metric lookup used by GET, PUT and DELETE filters on
`metric_id` alone and never consults the endpoint's metric-type binding: any
stored metric — whatever its `metric_type` — is fetched, updated and deleted
successfully through both the quant-model and the ml-model endpoint. -/
theorem single_metric_ops_ignore_variant :
    ∀ (s : GmState) (mid : Int) (m : MetricRow),
      s.metrics.filter (fun x => x.metric_id == mid) = [m] →
      getMetricById s mid = .ok m ∧
      quantMetricGetOne s mid = .ok (quantMetricDump s m) ∧
      mlMetricGetOne s mid = .ok (mlMetricDump s m) ∧
      (∀ b : Bool, ∃ s', quantMetricPut s mid [("is_active", .jbool b)] =
          .ok ([("is_active", .jbool b)], s') ∧ { m with is_active := b } ∈ s'.metrics) ∧
      (∀ b : Bool, ∃ s', mlMetricPut s mid [("is_active", .jbool b)] =
          .ok ([("is_active", .jbool b)], s') ∧ { m with is_active := b } ∈ s'.metrics) ∧
      (∃ j s', quantMetricDelete s mid = .ok (j, s') ∧ ∀ x ∈ s'.metrics, x.metric_id ≠ mid) ∧
      (∃ j s', mlMetricDelete s mid = .ok (j, s') ∧ ∀ x ∈ s'.metrics, x.metric_id ≠ mid) := by
  intro s mid m hf
  have hget : getMetricById s mid = .ok m := getMetricById_of_filter hf
  have hmem : m ∈ s.metrics ∧ (m.metric_id == mid) = true := by
    have : m ∈ s.metrics.filter (fun x => x.metric_id == mid) := by rw [hf]; simp
    exact ⟨(List.mem_filter.mp this).1, (List.mem_filter.mp this).2⟩
  have hput : ∀ (applyF : MetricRow → String × JValue → Except String MetricRow),
      (∀ m' b, applyF m' ("is_active", JValue.jbool b) = .ok { m' with is_active := b }) →
      ∀ b : Bool, ∃ s', metricPut applyF s mid [("is_active", .jbool b)] =
        .ok ([("is_active", .jbool b)], s') ∧ { m with is_active := b } ∈ s'.metrics := by
    intro applyF hA b
    refine ⟨_, metricPut_is_active_frame applyF hA s mid m b hf, ?_⟩
    have := List.mem_map_of_mem
      (fun x => if x.metric_id == mid then { x with is_active := b } else x) hmem.1
    simpa [hmem.2] using this
  have hdel : ∀ (dump : GmState → MetricRow → Json),
      ∃ j s', metricDelete dump s mid = .ok (j, s') ∧ ∀ x ∈ s'.metrics, x.metric_id ≠ mid := by
    intro dump
    refine ⟨dump s m,
      { metrics := s.metrics.filter (fun x => !(x.metric_id == mid)),
        configs := s.configs.filter (fun c => !(c.metric_id == mid)),
        runs := s.runs.filter (fun r => !(r.metric_id == mid)) }, ?_, ?_⟩
    · unfold metricDelete
      rw [hget]
      rfl
    · intro x hx
      have := (List.mem_filter.mp hx).2
      simpa using this
  refine ⟨hget, ?_, ?_, hput applyQuantField (fun _ _ => rfl), hput applyMlField (fun _ _ => rfl),
    hdel quantMetricDump, hdel mlMetricDump⟩
  · unfold quantMetricGetOne
    rw [hget]
    rfl
  · unfold mlMetricGetOne
    rw [hget]
    rfl

/-- Witness for C10: the metric of `c10State` carries `metric_type`
`'ml_model_metric'`, yet every lookup, update and delete through the
quant-model endpoint (and the ml one) succeeds on it. -/
theorem single_metric_ops_ignore_variant_witness :
    getMetricById c10State 4 = .ok c10Metric ∧
    quantMetricGetOne c10State 4 = .ok (quantMetricDump c10State c10Metric) ∧
    mlMetricGetOne c10State 4 = .ok (mlMetricDump c10State c10Metric) ∧
    (∀ b : Bool, ∃ s', quantMetricPut c10State 4 [("is_active", .jbool b)] =
        .ok ([("is_active", .jbool b)], s') ∧ { c10Metric with is_active := b } ∈ s'.metrics) ∧
    (∀ b : Bool, ∃ s', mlMetricPut c10State 4 [("is_active", .jbool b)] =
        .ok ([("is_active", .jbool b)], s') ∧ { c10Metric with is_active := b } ∈ s'.metrics) ∧
    (∃ j s', quantMetricDelete c10State 4 = .ok (j, s') ∧ ∀ x ∈ s'.metrics, x.metric_id ≠ 4) ∧
    (∃ j s', mlMetricDelete c10State 4 = .ok (j, s') ∧ ∀ x ∈ s'.metrics, x.metric_id ≠ 4) :=
  single_metric_ops_ignore_variant c10State 4 c10Metric (by decide)

end GmService
